import Mathlib

/-!
Shallow embedding of src/upload_products.py, a Shopify catalog
synchronisation script.  Rows of a spreadsheet are grouped by handle; each
group is reconciled against the remote catalog: a missing product is created
(product shell, option, variant price/SKU backfill, images, metafields,
publish), an existing one is updated (core fields, option ensure, per-row
variant create/update).  Network effects are modelled by an explicit
environment (the oracle answering each request) and a trace of issued
requests.  Python-specific behaviours (truthiness, str() of NaN, dict
insertion order, str.replace replacing every occurrence) are modelled
faithfully.
-/

namespace UploadProducts

/-- A spreadsheet cell: either NaN/missing (pandas NaN) or a string value.
An absent optional column is modelled as the empty string, because the
source reads such columns with a default of the empty string. -/
inductive Cell where
  | na : Cell
  | str : String → Cell
deriving DecidableEq

/-- Python str() of a cell; str(nan) is the string nan. -/
def Cell.pyStr : Cell → String
  | .na => "nan"
  | .str s => s

/-- pd.isna on a cell. -/
def Cell.isna : Cell → Bool
  | .na => true
  | .str _ => false

/-- The guard `not sku or pd.isna(sku)` of the source: a row's SKU is
missing when the cell is NaN or the empty string. -/
def skuMissing : Cell → Bool
  | .na => true
  | .str s => s = ""

/-- ASCII whitespace stripped by Python str.strip(). -/
def isSpace (c : Char) : Bool :=
  c = ' ' || c = '\t' || c = '\n' || c = '\r' || c = '\x0b' || c = '\x0c'

/-- Python str.strip(): remove leading and trailing whitespace. -/
def pyStrip (s : String) : String :=
  String.mk (((s.data.dropWhile isSpace).reverse.dropWhile isSpace).reverse)

/-- Python str.lower() restricted to ASCII letters (the only case the
source data exercises). -/
def pyLower (s : String) : String :=
  String.mk (s.data.map Char.toLower)

/-- Python s.startswith(p). -/
def pyStartsWith (s p : String) : Bool :=
  p.data.isPrefixOf s.data

/-- Split a character list at the first occurrence of the separator. -/
def splitOnceAux (sep : Char) : List Char → Option (List Char × List Char)
  | [] => none
  | c :: rest =>
    if c = sep then some ([], rest)
    else
      match splitOnceAux sep rest with
      | none => none
      | some (a, b) => some (c :: a, b)

/-- Python s.split(sep, 2): at most two splits, remainder kept whole. -/
def split2 (sep : Char) (s : String) : List String :=
  match splitOnceAux sep s.data with
  | none => [s]
  | some (a, r) =>
    match splitOnceAux sep r with
    | none => [String.mk a, String.mk r]
    | some (b, r2) => [String.mk a, String.mk b, String.mk r2]

/-- Python s.split(sep) for a single-character separator. -/
def pySplitAux (sep : Char) (cur : List Char) : List Char → List (List Char)
  | [] => [cur.reverse]
  | c :: rest =>
    if c = sep then cur.reverse :: pySplitAux sep [] rest
    else pySplitAux sep (c :: cur) rest

/-- Python s.split(sep) for a single-character separator. -/
def pySplit (sep : Char) (s : String) : List String :=
  (pySplitAux sep [] s.data).map String.mk

/-- Replace every occurrence of a (non-empty) pattern, left to right and
non-overlapping, as Python str.replace does.  Fuel-indexed so that the
kernel can evaluate it; the initial fuel is the length of the string. -/
def pyReplaceAux (pat rep : List Char) : Nat → List Char → List Char
  | 0, s => s
  | _, [] => []
  | fuel + 1, c :: rest =>
    if pat.isPrefixOf (c :: rest) then
      rep ++ pyReplaceAux pat rep fuel (rest.drop (pat.length - 1))
    else
      c :: pyReplaceAux pat rep fuel rest

/-- Python s.replace(pat, rep) for a non-empty pattern. -/
def pyReplace (s pat rep : String) : String :=
  String.mk (pyReplaceAux pat.data rep.data s.data.length s.data)

/-- Python dict insertion into an association list: an existing key keeps
its position and gets the new value, a new key is appended. -/
def dictInsert {α : Type} (m : List (String × α)) (k : String) (v : α) :
    List (String × α) :=
  match m with
  | [] => [(k, v)]
  | (k1, v1) :: rest =>
    if k1 = k then (k1, v) :: rest else (k1, v1) :: dictInsert rest k v

/-- Python dict lookup (dict.get). -/
def dictGet {α : Type} (m : List (String × α)) (k : String) : Option α :=
  match m with
  | [] => none
  | (k1, v1) :: rest => if k1 = k then some v1 else dictGet rest k

/-- Python `a or b` on optional strings: None and the empty string are
falsy. -/
def pyOr (a b : Option String) : Option String :=
  match a with
  | some s => if s = "" then b else some s
  | none => b

/-- Python truthiness of an optional string (`if option_name:`): None and
the empty string are falsy. -/
def optTruthy : Option String → Bool
  | none => false
  | some s => s ≠ ""

/-- Python list(dict.fromkeys(l)): dedupe preserving first-seen order. -/
def dedupFirst (l : List String) : List String :=
  l.foldl (fun acc s => if s ∈ acc then acc else acc ++ [s]) []

/-- Tag parsing of the source: split on commas, strip each tag, drop the
blank ones. -/
def parseTags (c : Cell) : List String :=
  ((pySplit ',' c.pyStr).map pyStrip).filter (fun t => t ≠ "")

/-! ## RequestDispatcher: run_graphql_query -/

/-- The transport-level outcome of one request, as the dispatcher sees it:
either a transport failure (network error, bad HTTP status, unparsable
body) or a parsed JSON envelope carrying an optional top-level error list,
optional rate-limit telemetry (extensions.cost present, and within it
throttleStatus.currentlyAvailable possibly absent) and an optional data
field. -/
inductive GqlResponse (α : Type) where
  | transportFailure : GqlResponse α
  | payload (errors : Bool) (cost : Option (Option Nat)) (dat : Option α) :
      GqlResponse α

/-- run_graphql_query of the source, as a pure function from the response
to (returned value, seconds slept before returning).  A transport failure
or a top-level error list yields None without sleeping; otherwise, when
telemetry is present and the currently available budget (defaulting to
1000 when the inner field is absent) is below 200, the dispatcher sleeps
5 seconds before returning the data field. -/
def run_graphql_query {α : Type} (resp : GqlResponse α) : Option α × Nat :=
  match resp with
  | .transportFailure => (none, 0)
  | .payload errors cost dat =>
    if errors then (none, 0)
    else
      match cost with
      | none => (dat, 0)
      | some avail => if avail.getD 1000 < 200 then (dat, 5) else (dat, 0)

/-! ## Rows and product input -/

/-- One spreadsheet row.  handle and title are the required string
columns; the remaining columns are cells.  The images field is an Option
because the source tests membership of the images key before reading it;
metafieldCols lists the row's columns in order together with their values
(only the ones with a metafield underscore prefix matter). -/
structure Row where
  handle : String
  title : String
  description : Cell := .na
  vendor : Cell := .na
  productType : Cell := .na
  tags : Cell := .na
  variant_sku : Cell := .na
  variant_price : Cell := .na
  variant_option1_name : Cell := .na
  variant_option1_value : Cell := .na
  images : Option Cell := none
  metafieldCols : List (String × Cell) := []
deriving DecidableEq

/-- The fields of the ProductInput built for productCreate and
productUpdate. -/
structure ProductInput where
  handle : String
  title : String
  descriptionHtml : String
  vendor : String
  productType : String
  tags : List String
deriving DecidableEq

/-- Product-level input from a row (the source always uses the first row
of the group). -/
def productInputOf (r : Row) : ProductInput :=
  ⟨r.handle, r.title, r.description.pyStr, r.vendor.pyStr,
    r.productType.pyStr, parseTags r.tags⟩

/-- The derived option name: None when the cell is NaN, otherwise the
stripped string (possibly empty, which later truthiness checks treat as
no option). -/
def optionNameOf (r : Row) : Option String :=
  if r.variant_option1_name.isna then none
  else some (pyStrip r.variant_option1_name.pyStr)

/-- str() of every non-NaN option value across the group, in row order
(not stripped, exactly as the source comprehension builds it). -/
def optionValuesOf (group : List Row) : List String :=
  (group.filter (fun r => !r.variant_option1_value.isna)).map
    (fun r => r.variant_option1_value.pyStr)

/-! ## CatalogLookup: check_product_exists -/

/-- One variant node of the productByHandle response: id, sku (empty
string models a null or empty SKU), title and the linked inventory item
id if any. -/
structure VariantNode where
  id : String
  sku : String
  title : String
deriving DecidableEq

/-- The productByHandle response payload. -/
structure ProductData where
  id : String
  options : List String
  variants : List VariantNode
deriving DecidableEq

/-- One iteration of the loop of check_product_exists over the fetched
variants: extend the SKU-to-variant-id dict (keys stripped, variants
with a falsy SKU not indexed) and the default variant id (set for every
variant when the product has no options and exactly one variant exists,
or for every variant titled Default Title when the product has no
options).  n is the length of the fetched variant list, fixed before
the loop. -/
def checkStep (has_options : Bool) (n : Nat)
    (acc : List (String × String) × Option String) (v : VariantNode) :
    List (String × String) × Option String :=
  let d :=
    if has_options = false ∧ n = 1 then some v.id
    else if v.title = "Default Title" ∧ has_options = false then some v.id
    else acc.2
  let m := if v.sku ≠ "" then dictInsert acc.1 (pyStrip v.sku) v.id else acc.1
  (m, d)

/-- The whole loop of check_product_exists. -/
def checkLoop (has_options : Bool) (n : Nat) (vs : List VariantNode) :
    List (String × String) × Option String :=
  vs.foldl (checkStep has_options n) ([], none)

/-- The pure core of check_product_exists on a present product: product
id, variants-by-SKU dict, existing option names, default variant id. -/
def resolveProduct (p : ProductData) :
    Option String × List (String × String) × List String × Option String :=
  let r := checkLoop (p.options.length > 0) p.variants.length p.variants
  (some p.id, r.1, p.options, r.2)

/-! ## Create path: variant maps and the per-row resolution loop -/

/-- One variant node of the getProductVariants query used on the create
path: id, sku, price, optional inventory item id and the selected
options as (name, value) pairs. -/
structure CreatedVariant where
  id : String
  sku : String
  price : String
  inventoryItemId : Option String
  selectedOptions : List (String × String)
deriving DecidableEq

/-- Whether some fetched variant already exposes a linked inventory item
(the poll's break condition). -/
def hasInventory (vs : List CreatedVariant) : Bool :=
  vs.any (fun v =>
    match v.inventoryItemId with
    | some i => i ≠ ""
    | none => false)

/-- The loop of create_product_with_variants over the freshly fetched
variants: the option-value-to-variant-id dict (each value inserted in
original stripped case and lower case) and the variant-id-to-inventory-id
dict. -/
def createMapsStep
    (acc : List (String × String) × List (String × String))
    (v : CreatedVariant) :
    List (String × String) × List (String × String) :=
  let vm :=
    match v.selectedOptions with
    | [] => acc.1
    | (_, val) :: _ =>
      let ov := pyStrip val
      dictInsert (dictInsert acc.1 ov v.id) (pyLower ov) v.id
  let im :=
    match v.inventoryItemId with
    | some i => if i ≠ "" then dictInsert acc.2 v.id i else acc.2
    | none => acc.2
  (vm, im)

/-- The whole variant-map loop of the create path. -/
def buildCreateMaps (dat : Option (List CreatedVariant)) :
    List (String × String) × List (String × String) :=
  match dat with
  | none => ([], [])
  | some vs => vs.foldl createMapsStep ([], [])

/-- Lines 466 to 472 of the source: the option value of a row (stripped,
only when an option name is declared and the cell is not NaN) and its
lookup in the option-value dict, first exact, then lower-cased, with
Python or-semantics. -/
def resolveCreateVariantId (option_name : Option String)
    (variants_map : List (String × String)) (row : Row) : Option String :=
  let option_value :=
    if optTruthy option_name && !row.variant_option1_value.isna then
      some (pyStrip row.variant_option1_value.pyStr)
    else none
  if optTruthy option_value then
    pyOr (dictGet variants_map (option_value.getD ""))
      (dictGet variants_map (pyLower (option_value.getD "")))
  else none

/-- Accumulator of the create-path row loop: the price-update batch (in
append order) and the variant-id keyed dict mapping to (inventory item id
if already known, str of the row SKU). -/
def pushVariant (inv_map : List (String × String))
    (acc : List (String × String) × List (String × (Option String × String)))
    (vid : String) (row : Row) :
    List (String × String) × List (String × (Option String × String)) :=
  let price := row.variant_price.pyStr
  let sku := row.variant_sku.pyStr
  let inv := dictGet inv_map vid
  let entry := if optTruthy inv then (inv, sku) else ((none : Option String), sku)
  (acc.1 ++ [(vid, price)], dictInsert acc.2 vid entry)

/-- One iteration of the create-path row loop (lines 460 to 506): skip a
row without a SKU; otherwise resolve the target variant by option value;
on a miss, only when no option name is declared, fall back to the first
fetched variant with no selected options. -/
def buildStep (option_name : Option String)
    (variants_map : List (String × String))
    (dat : Option (List CreatedVariant)) (inv_map : List (String × String))
    (acc : List (String × String) × List (String × (Option String × String)))
    (row : Row) :
    List (String × String) × List (String × (Option String × String)) :=
  if skuMissing row.variant_sku then acc
  else
    let variant_id := resolveCreateVariantId option_name variants_map row
    if optTruthy variant_id then pushVariant inv_map acc (variant_id.getD "") row
    else if !optTruthy option_name then
      match dat with
      | some vs =>
        match vs.find? (fun v => v.selectedOptions.isEmpty) with
        | some dv => pushVariant inv_map acc dv.id row
        | none => acc
      | none => acc
    else acc

/-- The create-path row loop over the whole group. -/
def buildVariantUpdates (group : List Row) (option_name : Option String)
    (variants_map : List (String × String))
    (dat : Option (List CreatedVariant))
    (inv_map : List (String × String)) :
    List (String × String) × List (String × (Option String × String)) :=
  group.foldl (buildStep option_name variants_map dat inv_map) ([], [])

/-! ## AssetAttacher: metafield parsing -/

/-- One metafieldsSet upsert: namespace, key, value, type. -/
structure MetafieldCall where
  ns : String
  key : String
  value : String
  typeName : String
deriving DecidableEq

/-- add_metafields_to_product of the source, as the list of upserts
issued: keep the columns whose name has the metafield underscore prefix
and a non-blank value, remove every occurrence of the prefix string from
the name (Python str.replace), split on the first two underscores, and
emit namespace, key and type (defaulting the type) when at least two
segments result. -/
def metafieldCallsOf (cols : List (String × Cell)) : List MetafieldCall :=
  (cols.filter (fun p => pyStartsWith p.1 "metafield_")).filterMap
    (fun p =>
      if p.2.isna || pyStrip p.2.pyStr = "" then none
      else
        match split2 '_' (pyReplace p.1 "metafield_" "") with
        | ns :: key :: rest =>
          some ⟨ns, key, p.2.pyStr, rest.headD "single_line_text_field"⟩
        | _ => none)

/-! ## Requests and the environment -/

/-- The requests the script can send, recorded in issue order. -/
inductive Req where
  | productByHandleQ (handle : String)
  | productCreateM (input : ProductInput)
  | optionsCreateM (productId : String) (optName : String) (values : List String)
  | getVariantsQ (productId : String)
  | bulkPriceUpdateM (productId : String) (variants : List (String × String))
  | invItemUpdateM (inventoryItemId : String) (sku : String)
  | getVariantInvQ (variantId : String)
  | variantsBulkCreateM (productId : String) (price : String)
      (optionValue : Option (String × String))
  | variantUpdateM (variantId : String) (price : String)
  | productUpdateM (productId : String) (input : ProductInput)
  | getProductOptionsQ (productId : String)
  | publicationsQ
  | publishM (productId : String) (publicationId : String)
  | fileCreateM (path : String)
  | imagesAttachM (productId : String) (imageIds : List String)
  | metafieldsSetM (productId : String) (call : MetafieldCall)
deriving DecidableEq

/-- The oracle answering each request.  None models every collapsed
failure (transport failure, top-level errors, missing result object);
Bool fields model whether the mutation reported its result object. -/
structure Env where
  productByHandle : String → Option ProductData
  productCreate : ProductInput → Option String
  optionsCreateOk : String → Bool
  getVariants : String → Nat → Option (List CreatedVariant)
  bulkPriceUpdate : String → List (String × String) → Option (List String)
  variantInventory : String → Option String
  invUpdateOk : String → String → Bool
  variantUpdateOk : String → Bool
  variantsBulkCreate : String → Option String
  productUpdateOk : String → Bool
  productOptions : String → Option (List String)
  publications : Option (List (String × String))
  fileExists : String → Bool
  imageUpload : String → Option String

/-! ## Variant SKU updates -/

/-- update_variant_sku_individual: no-op returning False on a falsy
inventory item id, otherwise one inventoryItemUpdate mutation whose
success the environment decides. -/
def update_variant_sku_individual (env : Env)
    (inventory_item_id : Option String) (sku : String) : Bool × List Req :=
  match inventory_item_id with
  | none => (false, [])
  | some inv =>
    if inv = "" then (false, [])
    else (env.invUpdateOk inv sku, [Req.invItemUpdateM inv sku])

/-- update_variant_sku: query the variant's inventory item id, then
update it when found. -/
def update_variant_sku (env : Env) (variant_id : String) (sku : String) :
    Bool × List Req :=
  match env.variantInventory variant_id with
  | some inv =>
    let r := update_variant_sku_individual env (some inv) sku
    (r.1, Req.getVariantInvQ variant_id :: r.2)
  | none => (false, [Req.getVariantInvQ variant_id])

/-- update_variant: one bulk-update mutation carrying the row price;
when it reports updated variants and the row carries a SKU, re-assert
the SKU through update_variant_sku. -/
def update_variant (env : Env) (variant_id : String) (row : Row) : List Req :=
  let t0 := [Req.variantUpdateM variant_id row.variant_price.pyStr]
  if env.variantUpdateOk variant_id then
    if skuMissing row.variant_sku then t0
    else t0 ++ (update_variant_sku env variant_id row.variant_sku.pyStr).2
  else t0

/-- create_variant: when no option name is declared and a default
variant id is known, update that variant instead; otherwise issue one
bulk-create mutation (with the row's raw option value when an option
name is declared and the cell is not NaN) and, when a variant was
created and the row carries a SKU, backfill the SKU. -/
def create_variant (env : Env) (product_id : String) (row : Row)
    (option_name : Option String) (default_variant_id : Option String) :
    List Req :=
  if !optTruthy option_name && optTruthy default_variant_id then
    update_variant env (default_variant_id.getD "") row
  else
    let ov : Option (String × String) :=
      if optTruthy option_name && !row.variant_option1_value.isna then
        some (row.variant_option1_value.pyStr, option_name.getD "")
      else none
    let t0 := [Req.variantsBulkCreateM product_id row.variant_price.pyStr ov]
    match env.variantsBulkCreate product_id with
    | some variant_id =>
      if skuMissing row.variant_sku then t0
      else t0 ++ (update_variant_sku env variant_id row.variant_sku.pyStr).2
    | none => t0

/-! ## Assets, publishing, options -/

/-- Comma-separated image paths of a cell; a NaN or empty cell yields
no paths. -/
def parseImagePaths (c : Cell) : List String :=
  match c with
  | .na => []
  | .str s =>
    if s = "" then []
    else ((pySplit ',' s).map pyStrip).filter (fun p => p ≠ "")

/-- upload_image_to_shopify: URLs pass through with no request; local
paths that exist are uploaded through one fileCreate mutation whose
result the environment decides; missing files yield None and no
request. -/
def upload_image_to_shopify (env : Env) (path : String) :
    Option String × List Req :=
  let p := pyStrip path
  if pyStartsWith p "http://" || pyStartsWith p "https://" then (some p, [])
  else if env.fileExists p then (env.imageUpload p, [Req.fileCreateM p])
  else (none, [])

/-- add_images_to_product: resolve every entry, then a single attach
mutation when at least one image reference resolved. -/
def add_images_to_product (env : Env) (product_id : String) (c : Cell) :
    List Req :=
  let paths := parseImagePaths c
  if paths.isEmpty then []
  else
    let results := paths.map (upload_image_to_shopify env)
    let trace := (results.map Prod.snd).flatten
    let image_ids := results.filterMap
      (fun r =>
        match r.1 with
        | some i => if i = "" then none else some i
        | none => none)
    if image_ids.isEmpty then trace
    else trace ++ [Req.imagesAttachM product_id image_ids]

/-- The requests issued by add_metafields_to_product: one metafieldsSet
per parsed column. -/
def metafieldTrace (product_id : String) (cols : List (String × Cell)) :
    List Req :=
  (metafieldCallsOf cols).map (fun c => Req.metafieldsSetM product_id c)

/-- publish_product_to_sales_channel: list the channels, find the first
one named Online Store, publish to it when found. -/
def publish_product_to_sales_channel (env : Env) (product_id : String) :
    List Req :=
  let t0 := [Req.publicationsQ]
  match env.publications with
  | none => t0
  | some pubs =>
    match (pubs.filter (fun p => p.2 = "Online Store")).head? with
    | none => t0
    | some pub =>
      if pub.1 = "" then t0 else t0 ++ [Req.publishM product_id pub.1]

/-- ensure_product_options_exist: no-op on a falsy option name or empty
value list; otherwise query the existing option names and create the
option with the deduped values when it is not present yet. -/
def ensure_product_options_exist (env : Env) (product_id : String)
    (option_name : Option String) (option_values : List String) :
    Bool × List Req :=
  if !optTruthy option_name || option_values.isEmpty then (true, [])
  else
    let q := [Req.getProductOptionsQ product_id]
    let existing :=
      match env.productOptions product_id with
      | some opts => opts
      | none => []
    let oname := option_name.getD ""
    if oname ∈ existing then (true, q)
    else
      (env.optionsCreateOk product_id,
        q ++ [Req.optionsCreateM product_id oname (dedupFirst option_values)])

/-! ## ProductUpdater -/

/-- update_product: one core-field update mutation; only when it reports
a product are the images (when the row has an images column) and the
metafields attached. -/
def update_product (env : Env) (product_id : String) (row : Row) : List Req :=
  let t0 := [Req.productUpdateM product_id (productInputOf row)]
  if env.productUpdateOk product_id then
    let ti :=
      match row.images with
      | some c => add_images_to_product env product_id c
      | none => []
    t0 ++ ti ++ metafieldTrace product_id row.metafieldCols
  else t0

/-- The option-ensure step of the update branch of main: only when the
first row declares a truthy option name and some row carries a non-NaN
option value. -/
def ensureTraceOf (env : Env) (product_id : String) (main_row : Row)
    (group : List Row) : List Req :=
  let option_name := optionNameOf main_row
  if optTruthy option_name then
    let ovs := optionValuesOf group
    if ovs.isEmpty then []
    else (ensure_product_options_exist env product_id option_name ovs).2
  else []

/-- The per-row loop of the update branch of main: skip rows without a
SKU; look the stripped SKU up in the pre-fetched variant dict; create a
variant on a miss (with the default-variant fallback inside
create_variant), update it on a hit. -/
def updateRowsTrace (env : Env) (product_id : String) (group : List Row)
    (option_name : Option String) (existing_variants : List (String × String))
    (default_variant_id : Option String) : List Req :=
  (group.map
    (fun row =>
      if skuMissing row.variant_sku then []
      else
        match dictGet existing_variants (pyStrip row.variant_sku.pyStr) with
        | none => create_variant env product_id row option_name default_variant_id
        | some vid => update_variant env vid row)).flatten

/-- The whole update branch of main for one group. -/
def processUpdateGroup (env : Env) (product_id : String) (group : List Row)
    (existing_variants : List (String × String))
    (default_variant_id : Option String) : List Req :=
  match group.head? with
  | none => []
  | some main_row =>
    update_product env product_id main_row
      ++ ensureTraceOf env product_id main_row group
      ++ updateRowsTrace env product_id group (optionNameOf main_row)
          existing_variants default_variant_id

/-! ## ProductCreator -/

/-- The bounded poll (three attempts) for the freshly created variants:
break as soon as a fetch reports a variant with an inventory item,
otherwise keep the last fetched response. -/
def pollVariants (env : Env) (product_id : String) :
    Option (List CreatedVariant) × List Req :=
  let pollHit : Option (List CreatedVariant) → Bool := fun r =>
    match r with
    | some vs => hasInventory vs
    | none => false
  let r0 := env.getVariants product_id 0
  if pollHit r0 then (r0, [Req.getVariantsQ product_id])
  else
    let r1 := env.getVariants product_id 1
    if pollHit r1 then
      (r1, [Req.getVariantsQ product_id, Req.getVariantsQ product_id])
    else
      (env.getVariants product_id 2,
        [Req.getVariantsQ product_id, Req.getVariantsQ product_id,
          Req.getVariantsQ product_id])

/-- Lines 508 to 546 of the source: one bulk price update when the batch
is non-empty; for each variant id the mutation reports as updated, the
SKU backfill, direct when the inventory item id is known, through a
variant query otherwise. -/
def issueVariantUpdates (env : Env) (product_id : String)
    (variants_to_update : List (String × String))
    (variant_sku_map : List (String × (Option String × String))) : List Req :=
  if variants_to_update.isEmpty then []
  else
    let t0 := [Req.bulkPriceUpdateM product_id variants_to_update]
    match env.bulkPriceUpdate product_id variants_to_update with
    | none => t0
    | some updated_ids =>
      t0 ++ (updated_ids.map
        (fun vid =>
          match dictGet variant_sku_map vid with
          | none => []
          | some entry =>
            match entry.1 with
            | some inv => (update_variant_sku_individual env (some inv) entry.2).2
            | none => (update_variant_sku env vid entry.2).2)).flatten

/-- create_product_with_variants: shell creation (aborting the group on
failure), option creation, the variant poll, the per-row resolution
loop, the price/SKU backfill, images, metafields and publishing. -/
def create_product_with_variants (env : Env) (group : List Row) :
    Option String × List Req :=
  match group.head? with
  | none => (none, [])
  | some main_row =>
    let inp := productInputOf main_row
    let t0 := [Req.productCreateM inp]
    match env.productCreate inp with
    | none => (none, t0)
    | some product_id =>
      let option_name := optionNameOf main_row
      let unique_values := dedupFirst (optionValuesOf group)
      let tOpt :=
        if optTruthy option_name && !unique_values.isEmpty then
          [Req.optionsCreateM product_id (option_name.getD "") unique_values]
        else []
      let poll := pollVariants env product_id
      let maps := buildCreateMaps poll.1
      let upd := buildVariantUpdates group option_name maps.1 poll.1 maps.2
      let tIssue := issueVariantUpdates env product_id upd.1 upd.2
      let tImg :=
        match main_row.images with
        | some c => add_images_to_product env product_id c
        | none => []
      (some product_id,
        t0 ++ tOpt ++ poll.2 ++ tIssue ++ tImg
          ++ metafieldTrace product_id main_row.metafieldCols
          ++ publish_product_to_sales_channel env product_id)

/-! ## ProductReconciler: main -/

/-- check_product_exists with its request: the resolved quadruple or the
all-absent quadruple when the product is missing. -/
def check_product_exists (env : Env) (handle : String) :
    (Option String × List (String × String) × List String × Option String)
      × List Req :=
  match env.productByHandle handle with
  | none => ((none, [], [], none), [Req.productByHandleQ handle])
  | some p => (resolveProduct p, [Req.productByHandleQ handle])

/-- Processing of one row group in main: look the handle up, then either
the create path (a creation failure ends the group's processing) or the
update branch. -/
def processGroup (env : Env) (handle : String) (group : List Row) : List Req :=
  match group.head? with
  | none => []
  | some _ =>
    let r := check_product_exists env handle
    match r.1.1 with
    | none => r.2 ++ (create_product_with_variants env group).2
    | some pid =>
      r.2 ++ processUpdateGroup env pid group r.1.2.1 r.1.2.2.2

/-- The main loop over every handle group, in order; a group-level
failure never stops the loop. -/
def mainLoop (env : Env) (groups : List (String × List Row)) : List Req :=
  (groups.map (fun g => processGroup env g.1 g.2)).flatten

/-! ## Remote-state semantics of the variant mutations -/

/-- The remote state the variant mutations touch: variant prices (by
variant id) and SKUs (by inventory item id, where Shopify stores them). -/
structure Remote where
  prices : List (String × String)
  skus : List (String × String)
deriving DecidableEq

/-- The server-side effect of one issued request on that state; queries
and the requests not touching prices or SKUs leave it unchanged. -/
def applyReq (st : Remote) : Req → Remote
  | .variantUpdateM vid price => ⟨dictInsert st.prices vid price, st.skus⟩
  | .invItemUpdateM inv sku => ⟨st.prices, dictInsert st.skus inv sku⟩
  | .bulkPriceUpdateM _ vs =>
    ⟨vs.foldl (fun m p => dictInsert m p.1 p.2) st.prices, st.skus⟩
  | _ => st

/-- The effect of a whole trace, in issue order. -/
def applyTrace (st : Remote) (t : List Req) : Remote :=
  t.foldl applyReq st

/-! ## Dictionary lemmas -/

theorem dictGet_dictInsert {α : Type} (m : List (String × α)) (k q : String)
    (v : α) :
    dictGet (dictInsert m k v) q = if k = q then some v else dictGet m q := by
  induction m with
  | nil => simp [dictInsert, dictGet]
  | cons h t ih =>
    obtain ⟨k1, v1⟩ := h
    by_cases hk : k1 = k
    · subst hk
      simp only [dictInsert, if_pos rfl, dictGet]
      by_cases hq : k1 = q <;> simp [hq]
    · simp only [dictInsert, if_neg hk, dictGet]
      by_cases hq : k1 = q
      · subst hq
        have hkq : ¬k = k1 := fun h1 => hk h1.symm
        simp [hkq]
      · simp [hq, ih]

theorem dictGet_dictInsert_isSome {α : Type} (m : List (String × α))
    (k q : String) (v : α) (h : (dictGet m q).isSome = true) :
    (dictGet (dictInsert m k v) q).isSome = true := by
  rw [dictGet_dictInsert]
  by_cases hk : k = q <;> simp [hk, h]

theorem pyOr_isSome_right (a b : Option String) (hb : b.isSome = true) :
    (pyOr a b).isSome = true := by
  cases a with
  | none => simpa [pyOr]
  | some s => by_cases hs : s = "" <;> simp [pyOr, hs, hb]

/-! ## C6: dispatcher rate-limit cooldown -/

/-- C6: a successful response whose telemetry reports an available budget
below 200 makes the dispatcher sleep 5 seconds before returning the
payload; a budget of 200 or more, or absent telemetry (no cost extension,
or no currentlyAvailable field, which defaults to 1000), returns without
sleeping. -/
theorem C6_rate_limit_cooldown {α : Type} (dat : Option α) (avail : Nat) :
    (avail < 200 →
      run_graphql_query (GqlResponse.payload false (some (some avail)) dat)
        = (dat, 5)) ∧
    (200 ≤ avail →
      run_graphql_query (GqlResponse.payload false (some (some avail)) dat)
        = (dat, 0)) ∧
    run_graphql_query (GqlResponse.payload false (some none) dat) = (dat, 0) ∧
    run_graphql_query (GqlResponse.payload false none dat) = (dat, 0) := by
  refine ⟨fun h => ?_, fun h => ?_, ?_, ?_⟩
  · simp [run_graphql_query, h]
  · simp [run_graphql_query, Nat.not_lt.mpr h]
  · simp [run_graphql_query]
  · simp [run_graphql_query]

/-- C6 witness: budget 150 sleeps 5, budget 200 does not sleep. -/
theorem C6_witness :
    run_graphql_query (GqlResponse.payload false (some (some 150)) (some 42))
      = (some 42, 5) ∧
    run_graphql_query (GqlResponse.payload false (some (some 200)) (some 42))
      = (some 42, 0) :=
  ⟨(C6_rate_limit_cooldown (some 42) 150).1 (by decide),
    (C6_rate_limit_cooldown (some 42) 200).2.1 (by decide)⟩

/-! ## C3: SKU matching -/

theorem checkLoop_map_lookup (ho : Bool) (n : Nat) (vs : List VariantNode)
    (acc : List (String × String) × Option String) (q : String) :
    (dictGet (vs.foldl (checkStep ho n) acc).1 q).isSome = true ↔
      (dictGet acc.1 q).isSome = true
        ∨ ∃ v ∈ vs, v.sku ≠ "" ∧ pyStrip v.sku = q := by
  induction vs generalizing acc with
  | nil => simp
  | cons v t ih =>
    rw [List.foldl_cons, ih]
    by_cases hsku : v.sku = ""
    · have hstep : (checkStep ho n acc v).1 = acc.1 := by simp [checkStep, hsku]
      rw [hstep]
      simp only [List.mem_cons, exists_eq_or_imp, hsku]
      tauto
    · have hstep : (checkStep ho n acc v).1
          = dictInsert acc.1 (pyStrip v.sku) v.id := by
        simp [checkStep, hsku]
      rw [hstep, dictGet_dictInsert]
      simp only [List.mem_cons, exists_eq_or_imp]
      by_cases hq : pyStrip v.sku = q
      · simp [hq, hsku]
      · simp [hq, hsku]

/-- C3: a row SKU matches an indexed variant exactly when some variant
carries a non-empty SKU equal to the row SKU after stripping surrounding
whitespace on both sides; no case folding happens, so a stored ABC-1 is
matched by a padded ABC-1 but not by abc-1. -/
theorem C3_sku_matching (ho : Bool) (n : Nat) (vs : List VariantNode)
    (rowSku : String) :
    ((dictGet (checkLoop ho n vs).1 (pyStrip rowSku)).isSome = true ↔
      ∃ v ∈ vs, v.sku ≠ "" ∧ pyStrip v.sku = pyStrip rowSku) ∧
    dictGet (resolveProduct ⟨"P", [], [⟨"gid", "ABC-1", "T"⟩]⟩).2.1
      (pyStrip "  ABC-1  ") = some "gid" ∧
    dictGet (resolveProduct ⟨"P", [], [⟨"gid", "ABC-1", "T"⟩]⟩).2.1
      (pyStrip "abc-1") = none := by
  refine ⟨?_, by decide, by decide⟩
  have h := checkLoop_map_lookup ho n vs ([], none) (pyStrip rowSku)
  simpa [dictGet] using h

/-! ## C7: default variant resolution -/

theorem checkLoop_snd_of_options (n : Nat) (vs : List VariantNode)
    (acc : List (String × String) × Option String) :
    (vs.foldl (checkStep true n) acc).2 = acc.2 := by
  induction vs generalizing acc with
  | nil => rfl
  | cons v t ih =>
    rw [List.foldl_cons, ih]
    simp [checkStep]

theorem checkLoop_snd_no_options (n : Nat) (hn : n ≠ 1) (vs : List VariantNode)
    (acc : List (String × String) × Option String) :
    (vs.foldl (checkStep false n) acc).2 =
      vs.foldl
        (fun d v => if v.title = "Default Title" then some v.id else d)
        acc.2 := by
  induction vs generalizing acc with
  | nil => rfl
  | cons v t ih =>
    rw [List.foldl_cons, ih, List.foldl_cons]
    have hstep : (checkStep false n acc v).2
        = if v.title = "Default Title" then some v.id else acc.2 := by
      simp [checkStep, hn]
    rw [hstep]

theorem foldl_default_find (vs : List VariantNode) (d : Option String) :
    vs.foldl (fun d v => if v.title = "Default Title" then some v.id else d) d
      = match vs.reverse.find? (fun v => v.title = "Default Title") with
        | some w => some w.id
        | none => d := by
  induction vs generalizing d with
  | nil => rfl
  | cons v t ih =>
    rw [List.foldl_cons, ih, List.reverse_cons, List.find?_append]
    cases hf : t.reverse.find? (fun v => v.title = "Default Title") with
    | some w => simp [Option.or]
    | none =>
      by_cases ht : v.title = "Default Title" <;> simp [Option.or, List.find?, ht]

/-- C7 counterexample: a product with no declared options and two
variants both titled Default Title.  The claim says defaultVariantId is
absent when more than one variant carries the implicit default title,
but the lookup keeps overwriting and returns the last such variant. -/
theorem C7_counterexample :
    (⟨"P", [], [⟨"v1", "", "Default Title"⟩, ⟨"v2", "", "Default Title"⟩]⟩ :
        ProductData).options.length = 0 ∧
    ((⟨"P", [], [⟨"v1", "", "Default Title"⟩, ⟨"v2", "", "Default Title"⟩]⟩ :
        ProductData).variants.filter
      (fun v => v.title = "Default Title")).length = 2 ∧
    (resolveProduct
      ⟨"P", [], [⟨"v1", "", "Default Title"⟩, ⟨"v2", "", "Default Title"⟩]⟩
      ).2.2.2 = some "v2" := by
  decide

/-- C7 amended: defaultVariantId is absent whenever the product declares
options; with no options it is the single variant when exactly one
variant exists, otherwise the LAST variant titled Default Title (absent
when none is). -/
theorem C7_default_variant_amended (p : ProductData) :
    (resolveProduct p).2.2.2 =
      if 0 < p.options.length then none
      else if p.variants.length = 1 then p.variants.head?.map VariantNode.id
      else (p.variants.reverse.find?
          (fun v => v.title = "Default Title")).map VariantNode.id := by
  by_cases ho : 0 < p.options.length
  · rw [if_pos ho]
    have hb : decide (p.options.length > 0) = true := decide_eq_true ho
    simp only [resolveProduct, checkLoop, hb]
    exact checkLoop_snd_of_options _ _ _
  · rw [if_neg ho]
    have hb : decide (p.options.length > 0) = false := decide_eq_false ho
    by_cases h1 : p.variants.length = 1
    · rw [if_pos h1]
      obtain ⟨v, hv⟩ := List.length_eq_one.mp h1
      simp only [resolveProduct, checkLoop, hb, hv]
      simp [checkStep]
    · rw [if_neg h1]
      simp only [resolveProduct, checkLoop, hb]
      rw [checkLoop_snd_no_options p.variants.length h1 p.variants ([], none),
        foldl_default_find]
      cases p.variants.reverse.find? (fun v => v.title = "Default Title") <;> rfl

/-! ## C4: option-value matching -/

theorem createMaps_lookup_lower (vs : List CreatedVariant)
    (acc : List (String × String) × List (String × String)) (q : String)
    (h : (dictGet acc.1 q).isSome = true
      ∨ ∃ v ∈ vs, ∃ pr, v.selectedOptions.head? = some pr
          ∧ pyLower (pyStrip pr.2) = q) :
    (dictGet (vs.foldl createMapsStep acc).1 q).isSome = true := by
  induction vs generalizing acc with
  | nil => simpa using h
  | cons v t ih =>
    rw [List.foldl_cons]
    apply ih
    rcases h with hacc | hex
    · left
      cases hso : v.selectedOptions with
      | nil => simpa [createMapsStep, hso] using hacc
      | cons pr rest =>
        obtain ⟨nm, val⟩ := pr
        simp only [createMapsStep, hso]
        exact dictGet_dictInsert_isSome _ _ _ _
          (dictGet_dictInsert_isSome _ _ _ _ hacc)
    · simp only [List.mem_cons, exists_eq_or_imp] at hex
      rcases hex with ⟨pr, hpr, hq⟩ | hrest
      · left
        obtain ⟨rest, hso⟩ := List.head?_eq_some_iff.mp hpr
        obtain ⟨nm, val⟩ := pr
        simp only [createMapsStep, hso]
        rw [dictGet_dictInsert]
        simp only at hq
        simp [hq]
      · right
        exact hrest

/-- C4: on the create path a row option value is resolved against the
index built from the freshly created variants by an exact lookup of the
stripped value first and a lower-cased lookup second, so any created
variant whose first selected option value agrees with the row value up
to case (after stripping) makes the match succeed. -/
theorem C4_option_value_matching (vs : List CreatedVariant)
    (oname rowVal : String) (h1 : oname ≠ "") (h2 : pyStrip rowVal ≠ "")
    (h : ∃ v ∈ vs, ∃ pr, v.selectedOptions.head? = some pr
        ∧ pyLower (pyStrip pr.2) = pyLower (pyStrip rowVal)) :
    (resolveCreateVariantId (some oname) (buildCreateMaps (some vs)).1
        { handle := "h", title := "t",
          variant_option1_value := Cell.str rowVal }).isSome = true := by
  have hmap : (dictGet (buildCreateMaps (some vs)).1
      (pyLower (pyStrip rowVal))).isSome = true := by
    simp only [buildCreateMaps]
    exact createMaps_lookup_lower vs ([], []) (pyLower (pyStrip rowVal))
      (Or.inr h)
  simp [resolveCreateVariantId, optTruthy, Cell.isna, Cell.pyStr, h1, h2]
  exact pyOr_isSome_right _ _ hmap

/-- C4 witness: a created option value Small is matched by the row value
small. -/
theorem C4_witness :
    (resolveCreateVariantId (some "Size")
        (buildCreateMaps (some [⟨"v1", "", "0", none, [("Size", "Small")]⟩])).1
        { handle := "h", title := "t",
          variant_option1_value := Cell.str "small" }).isSome = true :=
  C4_option_value_matching [⟨"v1", "", "0", none, [("Size", "Small")]⟩]
    "Size" "small" (by decide) (by decide)
    ⟨⟨"v1", "", "0", none, [("Size", "Small")]⟩, by decide,
      ("Size", "Small"), by decide, by decide⟩

/-! ## C8: metafield column parsing -/

/-- Modelled from the amended spec wording: every occurrence of the
metafield prefix string is deleted from the column name (Python
str.replace removes all occurrences, not only the leading prefix), the
result is split on the first two underscores into namespace and key with
the remainder as the type, defaulting to the single-line text type, and
names yielding fewer than two segments produce nothing. -/
def specMetafieldOfColumn (name value : String) : Option MetafieldCall :=
  match split2 '_' (pyReplace name "metafield_" "") with
  | ns :: key :: rest =>
    some ⟨ns, key, value, rest.headD "single_line_text_field"⟩
  | _ => none

/-- C8 counterexample: the column metafield_a_b_metafield_c matches the
claimed pattern with namespace a, key b and type metafield_c (splitting
after the fixed prefix), but the code removes EVERY occurrence of the
prefix string before splitting and emits type c instead. -/
theorem C8_counterexample :
    metafieldCallsOf [("metafield_a_b_metafield_c", Cell.str "v")]
      = [⟨"a", "b", "v", "c"⟩] ∧
    (⟨"a", "b", "v", "c"⟩ : MetafieldCall) ≠ ⟨"a", "b", "v", "metafield_c"⟩ := by
  decide

/-- C8 amended: for every row field whose name carries the metafield
prefix and whose value is non-blank, exactly one upsert is emitted,
derived by deleting every occurrence of the prefix string from the name
and splitting on the first two underscores (type defaulting to the
single-line text type); names yielding fewer than two segments, and
blank or NaN values, are skipped.  The Acme example of the claim still
decomposes as stated, and a prefix-only name is skipped. -/
theorem C8_metafield_parsing_amended :
    (∀ cols : List (String × Cell),
      metafieldCallsOf cols =
        (cols.filter (fun p => pyStartsWith p.1 "metafield_")).filterMap
          (fun p =>
            if p.2.isna || pyStrip p.2.pyStr = "" then none
            else specMetafieldOfColumn p.1 p.2.pyStr)) ∧
    metafieldCallsOf
        [("metafield_custom_brand_single_line_text_field", Cell.str "Acme")]
      = [⟨"custom", "brand", "Acme", "single_line_text_field"⟩] ∧
    metafieldCallsOf [("metafield_custom", Cell.str "v")] = [] := by
  refine ⟨fun cols => rfl, by decide, by decide⟩

/-! ## C5: rows without a SKU -/

theorem buildVariantUpdates_filter_aux (option_name : Option String)
    (variants_map : List (String × String)) (dat : Option (List CreatedVariant))
    (inv_map : List (String × String)) (group : List Row)
    (acc : List (String × String) × List (String × (Option String × String))) :
    group.foldl (buildStep option_name variants_map dat inv_map) acc =
      (group.filter (fun r => !skuMissing r.variant_sku)).foldl
        (buildStep option_name variants_map dat inv_map) acc := by
  induction group generalizing acc with
  | nil => rfl
  | cons r t ih =>
    by_cases hr : skuMissing r.variant_sku = true
    · have hstep : buildStep option_name variants_map dat inv_map acc r = acc := by
        simp [buildStep, hr]
      simp [List.filter_cons, hr, hstep, ih]
    · simp [List.filter_cons, hr, ih]

theorem updateRowsTrace_filter_aux (env : Env) (pid : String)
    (group : List Row) (option_name : Option String)
    (evars : List (String × String)) (dflt : Option String) :
    updateRowsTrace env pid group option_name evars dflt =
      updateRowsTrace env pid
        (group.filter (fun r => !skuMissing r.variant_sku))
        option_name evars dflt := by
  unfold updateRowsTrace
  induction group with
  | nil => rfl
  | cons r t ih =>
    by_cases hr : skuMissing r.variant_sku = true
    · simp [List.filter_cons, hr, ih]
    · simp only [List.filter_cons, hr]
      simp [ih]

/-- C5: a row whose SKU is absent, empty or NaN contributes nothing to
either path: the create-path row loop (the price-update batch and the
SKU backfill map, from which every variant mutation of that path is
built) and the update-path per-row loop compute exactly what they
compute on the group with such rows removed, so no variant create,
variant update, price update or SKU update references those rows. -/
theorem C5_blank_sku_rows_skipped (group : List Row)
    (option_name : Option String) (variants_map : List (String × String))
    (dat : Option (List CreatedVariant)) (inv_map : List (String × String))
    (env : Env) (pid : String) (evars : List (String × String))
    (dflt : Option String) :
    buildVariantUpdates group option_name variants_map dat inv_map =
      buildVariantUpdates (group.filter (fun r => !skuMissing r.variant_sku))
        option_name variants_map dat inv_map ∧
    updateRowsTrace env pid group option_name evars dflt =
      updateRowsTrace env pid
        (group.filter (fun r => !skuMissing r.variant_sku))
        option_name evars dflt :=
  ⟨buildVariantUpdates_filter_aux option_name variants_map dat inv_map group
      ([], []),
    updateRowsTrace_filter_aux env pid group option_name evars dflt⟩

/-! ## C10: unmatched option value on the create path -/

/-- C10: on the create path with a declared option name, a row carrying
a SKU whose option value is absent, blank, or matches no freshly created
variant either exactly or lower-cased, contributes nothing to the
price-update batch and the SKU backfill map, and the default-variant
fallback (reserved for groups with no option name) is not used for it. -/
theorem C10_unmatched_option_value_excluded (pre post : List Row) (r : Row)
    (option_name : Option String) (variants_map : List (String × String))
    (dat : Option (List CreatedVariant)) (inv_map : List (String × String))
    (hopt : optTruthy option_name = true)
    (hsku : skuMissing r.variant_sku = false)
    (hmiss : optTruthy (resolveCreateVariantId option_name variants_map r)
      = false) :
    buildVariantUpdates (pre ++ r :: post) option_name variants_map dat inv_map
      = buildVariantUpdates (pre ++ post) option_name variants_map dat
          inv_map := by
  unfold buildVariantUpdates
  rw [List.foldl_append, List.foldl_append, List.foldl_cons]
  have hstep : buildStep option_name variants_map dat inv_map
      (pre.foldl (buildStep option_name variants_map dat inv_map) ([], [])) r
      = pre.foldl (buildStep option_name variants_map dat inv_map) ([], []) := by
    simp [buildStep, hsku, hmiss, hopt]
  rw [hstep]

/-- Sample rows and option-value map for the C10 witness. -/
def rowSm : Row :=
  { handle := "h", title := "t", variant_sku := Cell.str "S1",
    variant_price := Cell.str "4", variant_option1_value := Cell.str "Small" }

def rowXL : Row :=
  { handle := "h", title := "t", variant_sku := Cell.str "S2",
    variant_price := Cell.str "5", variant_option1_value := Cell.str "XL" }

def mapC10 : List (String × String) := [("Small", "v1"), ("small", "v1")]

/-- C10 witness: a row with SKU S2 and option value XL, matching no
created variant of the Small-only index, is dropped from the loop. -/
theorem C10_witness :
    buildVariantUpdates [rowSm, rowXL] (some "Size") mapC10 none [] =
      buildVariantUpdates [rowSm] (some "Size") mapC10 none [] :=
  C10_unmatched_option_value_excluded [rowSm] [] rowXL (some "Size") mapC10
    none [] (by decide) (by decide) (by decide)

/-! ## C1: create failure isolation -/

/-- C1: for a group whose handle resolves to no remote product, when the
product-shell creation reports no product, the group's processing stops
right after the create mutation (no further request for the group), and
the main loop still processes every group of the run (each non-empty
group's handle lookup is issued). -/
theorem C1_create_failure_isolated (env : Env)
    (groups : List (String × List Row)) (handle : String) (group : List Row)
    (main_row : Row) (hmem : (handle, group) ∈ groups)
    (hhead : group.head? = some main_row)
    (hnoprod : env.productByHandle handle = none)
    (hfail : env.productCreate (productInputOf main_row) = none) :
    processGroup env handle group =
      [Req.productByHandleQ handle,
        Req.productCreateM (productInputOf main_row)] ∧
    ∀ h1 g1, (h1, g1) ∈ groups →
      g1 = [] ∨ Req.productByHandleQ h1 ∈ mainLoop env groups := by
  constructor
  · simp [processGroup, hhead, check_product_exists, hnoprod,
      create_product_with_variants, hfail]
  · intro h1 g1 hg
    cases g1 with
    | nil => exact Or.inl rfl
    | cons a t =>
      right
      have hp : Req.productByHandleQ h1 ∈ processGroup env h1 (a :: t) := by
        simp only [processGroup, List.head?_cons, check_product_exists]
        cases env.productByHandle h1 <;> simp [resolveProduct]
      exact List.mem_flatten.mpr ⟨processGroup env h1 (a :: t),
        List.mem_map.mpr ⟨(h1, a :: t), hg, rfl⟩, hp⟩

/-- An environment in which every request fails or resolves to nothing. -/
def env0 : Env where
  productByHandle := fun _ => none
  productCreate := fun _ => none
  optionsCreateOk := fun _ => false
  getVariants := fun _ _ => none
  bulkPriceUpdate := fun _ _ => none
  variantInventory := fun _ => none
  invUpdateOk := fun _ _ => false
  variantUpdateOk := fun _ => false
  variantsBulkCreate := fun _ => none
  productUpdateOk := fun _ => false
  productOptions := fun _ => none
  publications := none
  fileExists := fun _ => false
  imageUpload := fun _ => none

/-- Sample row for the C1 witness. -/
def rowC1 : Row := { handle := "h1", title := "t1" }

/-- C1 witness: a two-group run in which the first group's creation
fails; its trace is exactly the lookup and the failed create, and the
second group's lookup is still issued. -/
theorem C1_witness :
    processGroup env0 "h1" [rowC1] =
      [Req.productByHandleQ "h1", Req.productCreateM (productInputOf rowC1)] ∧
    ([rowC1] = [] ∨ Req.productByHandleQ "h2"
        ∈ mainLoop env0 [("h1", [rowC1]), ("h2", [rowC1])]) :=
  ⟨(C1_create_failure_isolated env0 [("h1", [rowC1]), ("h2", [rowC1])] "h1"
      [rowC1] rowC1 (by decide) rfl rfl rfl).1,
    (C1_create_failure_isolated env0 [("h1", [rowC1]), ("h2", [rowC1])] "h1"
      [rowC1] rowC1 (by decide) rfl rfl rfl).2 "h2" [rowC1] (by decide)⟩

/-! ## C2: core update failure on the update path -/

/-- Remote product and environment for the C2 counterexample: the
product exists with no options and no variants, and every mutation
fails, in particular the core-field update. -/
def pdC2 : ProductData := ⟨"P", [], []⟩

/-- Environment for the C2 counterexample. -/
def envC2 : Env :=
  { env0 with productByHandle := fun h => if h = "h" then some pdC2 else none }

/-- Sample row for the C2 counterexample. -/
def rowC2 : Row :=
  { handle := "h", title := "t", variant_sku := Cell.str "S1",
    variant_price := Cell.str "9" }

/-- C2 counterexample: the core-field update fails (reports no product),
yet the group's processing still issues a per-row variant create
mutation, contradicting the claim that no option-ensure or per-row
variant operations are performed after such a failure. -/
theorem C2_counterexample :
    envC2.productUpdateOk "P" = false ∧
    Req.variantsBulkCreateM "P" "9" none ∈ processGroup envC2 "h" [rowC2] := by
  decide

/-- C2 amended: when the core-field update reports no product, the
update mutation is the only request update_product issues (images and
metafields are skipped), but the option-ensure step and the per-row
variant create/update loop still run for the group. -/
theorem C2_core_update_failure_amended (env : Env) (pid : String)
    (group : List Row) (main_row : Row) (evars : List (String × String))
    (dflt : Option String) (hhead : group.head? = some main_row)
    (hfail : env.productUpdateOk pid = false) :
    update_product env pid main_row
      = [Req.productUpdateM pid (productInputOf main_row)] ∧
    processUpdateGroup env pid group evars dflt =
      [Req.productUpdateM pid (productInputOf main_row)]
        ++ ensureTraceOf env pid main_row group
        ++ updateRowsTrace env pid group (optionNameOf main_row) evars dflt := by
  have h1 : update_product env pid main_row
      = [Req.productUpdateM pid (productInputOf main_row)] := by
    simp [update_product, hfail]
  exact ⟨h1, by simp [processUpdateGroup, hhead, h1]⟩

/-- C2 witness: the amended behaviour at the concrete counterexample
environment. -/
theorem C2_witness :
    update_product envC2 "P" rowC2
      = [Req.productUpdateM "P" (productInputOf rowC2)] ∧
    processUpdateGroup envC2 "P" [rowC2] [] none =
      [Req.productUpdateM "P" (productInputOf rowC2)]
        ++ ensureTraceOf envC2 "P" rowC2 [rowC2]
        ++ updateRowsTrace envC2 "P" [rowC2] (optionNameOf rowC2) [] none :=
  C2_core_update_failure_amended envC2 "P" [rowC2] rowC2 [] none rfl rfl

/-! ## C9: default-variant updates on the update path -/

theorem applyTrace_append (st : Remote) (t1 t2 : List Req) :
    applyTrace st (t1 ++ t2) = applyTrace (applyTrace st t1) t2 :=
  List.foldl_append applyReq st t1 t2

/-- C9: on the update path with no declared option and a known default
variant, every row whose SKU misses the pre-fetched variant map issues
exactly a price update of the default variant, its inventory query and
an SKU update of its inventory item (never a variant creation), so
after applying the trace the default variant's price and its inventory
item's SKU are those of the last row of the group. -/
theorem C9_default_variant_last_row_wins (env : Env) (pid : String)
    (pre : List Row) (lastRow : Row) (option_name : Option String)
    (evars : List (String × String)) (d inv : String) (st : Remote)
    (hopt : optTruthy option_name = false) (hd : d ≠ "")
    (hinv : env.variantInventory d = some inv) (hinvne : inv ≠ "")
    (hupd : env.variantUpdateOk d = true)
    (hrows : ∀ r ∈ pre ++ [lastRow], skuMissing r.variant_sku = false
      ∧ dictGet evars (pyStrip r.variant_sku.pyStr) = none) :
    updateRowsTrace env pid (pre ++ [lastRow]) option_name evars (some d) =
      ((pre ++ [lastRow]).map (fun r =>
        [Req.variantUpdateM d r.variant_price.pyStr, Req.getVariantInvQ d,
          Req.invItemUpdateM inv r.variant_sku.pyStr])).flatten ∧
    dictGet (applyTrace st (updateRowsTrace env pid (pre ++ [lastRow])
        option_name evars (some d))).prices d
      = some lastRow.variant_price.pyStr ∧
    dictGet (applyTrace st (updateRowsTrace env pid (pre ++ [lastRow])
        option_name evars (some d))).skus inv
      = some lastRow.variant_sku.pyStr := by
  have htrace : updateRowsTrace env pid (pre ++ [lastRow]) option_name evars
      (some d) =
      ((pre ++ [lastRow]).map (fun r =>
        [Req.variantUpdateM d r.variant_price.pyStr, Req.getVariantInvQ d,
          Req.invItemUpdateM inv r.variant_sku.pyStr])).flatten := by
    unfold updateRowsTrace
    congr 1
    apply List.map_congr_left
    intro r hr
    obtain ⟨h1, h2⟩ := hrows r hr
    have hdT : optTruthy (some d) = true := by simp [optTruthy, hd]
    simp [h1, h2, create_variant, update_variant, update_variant_sku,
      update_variant_sku_individual, hopt, hdT, hupd, hinv, hinvne]
  refine ⟨htrace, ?_, ?_⟩ <;>
    rw [htrace, List.map_append, List.flatten_append, applyTrace_append] <;>
    simp [applyTrace, applyReq, dictGet_dictInsert]

/-- Environment for the C9 witness: the default variant d1 has inventory
item inv1, and its updates succeed. -/
def env9 : Env :=
  { env0 with
    variantInventory := fun v => if v = "d1" then some "inv1" else none,
    variantUpdateOk := fun v => v = "d1",
    invUpdateOk := fun _ _ => true }

/-- Sample rows for the C9 witness: same handle, two fresh SKUs. -/
def rowN1 : Row :=
  { handle := "h", title := "t", variant_sku := Cell.str "N1",
    variant_price := Cell.str "10" }

/-- Second sample row for the C9 witness. -/
def rowN2 : Row :=
  { handle := "h", title := "t", variant_sku := Cell.str "N2",
    variant_price := Cell.str "20" }

/-- C9 witness: two rows with SKUs absent from the fetched map both
update the default variant d1; the final price and SKU are those of the
second row. -/
theorem C9_witness :
    updateRowsTrace env9 "P" [rowN1, rowN2] none [] (some "d1") =
      (([rowN1, rowN2]).map (fun r =>
        [Req.variantUpdateM "d1" r.variant_price.pyStr,
          Req.getVariantInvQ "d1",
          Req.invItemUpdateM "inv1" r.variant_sku.pyStr])).flatten ∧
    dictGet (applyTrace ⟨[], []⟩ (updateRowsTrace env9 "P" [rowN1, rowN2]
        none [] (some "d1"))).prices "d1" = some rowN2.variant_price.pyStr ∧
    dictGet (applyTrace ⟨[], []⟩ (updateRowsTrace env9 "P" [rowN1, rowN2]
        none [] (some "d1"))).skus "inv1" = some rowN2.variant_sku.pyStr :=
  C9_default_variant_last_row_wins env9 "P" [rowN1] rowN2 none [] "d1" "inv1"
    ⟨[], []⟩ rfl (by decide) rfl (by decide) rfl (by decide)

end UploadProducts
